import Mathlib

/-!
Verification of the geodata repository (DEM download clients).

This file gives a shallow embedding of the pure control flow of
`geodata/dems.py` and `dataquery/dems.py`:

* filesystem existence checks are an oracle `String → Bool`;
* the S3 open probe in `Copernicus.build_urls` is an oracle
  `String → Bool` (`true` = open succeeded, `false` = any exception);
* Python `raise ValueError` is modelled with `Except String` when the
  message matters and with `Option` when only the raising does;
* float bounding-box coordinates are modelled as rationals, on which
  `np.floor` / `np.ceil` are exact.

Definitions follow the Python source line by line; theorems settle the
claims about it.
-/

namespace Geodata

/-- Python `str.zfill(3)` on a digit string (no sign, as only applied to
`str(abs(lon))` in the source): left-pad with the zero character to
width 3. -/
def zfill3 (s : String) : String :=
  String.mk (List.replicate (3 - s.length) (Char.ofNat 48)) ++ s

/-- Python `Path(folder, fn)` for the path shapes the source uses. -/
def joinPath (folder fn : String) : String :=
  folder ++ "/" ++ fn

/-- Python `s.rstrip("/")`: drop trailing slash characters. -/
def rstripSlash (s : String) : String :=
  String.mk ((s.toList.reverse.dropWhile (fun ch => ch == Char.ofNat 47)).reverse)

/-- Helper for `lastSegment`: scans the characters, resetting the
accumulator at each slash, and returns the text after the last one. -/
def lastSegmentAux : List Char → List Char → List Char
  | [], acc => acc.reverse
  | ch :: rest, acc =>
    if ch == Char.ofNat 47 then lastSegmentAux rest []
    else lastSegmentAux rest (ch :: acc)

/-- Python `Path(url).name` for slash-separated URLs with a non-empty
final segment: the text after the last slash. -/
def lastSegment (url : String) : String :=
  String.mk (lastSegmentAux url.toList [])

/-- Python `np.arange(a, b, 1)` on integers: the ascending list a, a+1, ..., b-1. -/
def intRange (a b : Int) : List Int :=
  (List.range (b - a).toNat).map (fun (i : Nat) => a + (i : Int))

/-- Source `dems.py` line 168: the Copernicus collections accepted by
`Copernicus.__init__` (the Python set, as a list). -/
def copernicusValidCollections : List String :=
  ["copernicus-dem-90m", "copernicus-dem-30m"]

/-- Bounding box `[xmin, ymin, xmax, ymax]`, coordinates as rationals. -/
structure BBox where
  xmin : Rat
  ymin : Rat
  xmax : Rat
  ymax : Rat
deriving Repr, DecidableEq

/-- The instance attributes `Copernicus.__init__` assigns
(`dems.py` lines 175-182; the fsspec filesystem handle is the probe
oracle, passed separately to each method). -/
structure CopernicusState where
  base_url_s3 : String
  base_url_http : String
  bbox : BBox
  output_folder : String
  overwrite : Bool
  arcsecond : String
  local_tiles : List String
deriving Repr, DecidableEq

/-- Model of `Copernicus.__init__` (`dems.py` lines 161-182): validates the
collection first and only then assigns attributes; `raise ValueError`
is modelled as `none`. -/
def copernicusInit (collection : String) (bbox : BBox)
    (output_folder : String) (overwrite : Bool) : Option CopernicusState :=
  if collection ∈ copernicusValidCollections then
    some
      { base_url_s3 := "s3://" ++ collection ++ "/"
        base_url_http := "http://" ++ collection ++ ".s3.amazonaws.com/"
        bbox := bbox
        output_folder := output_folder
        overwrite := overwrite
        arcsecond := if collection == "copernicus-dem-90m" then "3" else "1"
        local_tiles := [] }
  else
    none

/-- Source `dems.py` lines 198-202: the longitude tag, west of the prime
meridian tagged with the W character, otherwise E, absolute value
zero-filled to three digits. -/
def lonStr (lon : Int) : String :=
  if lon < 0 then "W" ++ zfill3 (toString lon.natAbs)
  else "E" ++ zfill3 (toString lon.natAbs)

/-- Source `dems.py` lines 203-207: the latitude tag, south tagged S, otherwise
N, absolute value with no padding. -/
def latStr (lat : Int) : String :=
  if lat < 0 then "S" ++ toString lat.natAbs
  else "N" ++ toString lat.natAbs

/-- Source `dems.py` lines 212-220: the tile folder component (trailing slash
included, as in the source). -/
def baseFolder (arcsecond latTag lonTag : String) : String :=
  "Copernicus_DSM_COG_" ++ arcsecond ++ "0_" ++ latTag ++ "_00_" ++ lonTag
    ++ "_00_DEM/"

/-- Source `dems.py` lines 221-229: the tile file name. -/
def demFile (arcsecond latTag lonTag : String) : String :=
  "Copernicus_DSM_COG_" ++ arcsecond ++ "0_" ++ latTag ++ "_00_" ++ lonTag
    ++ "_00_DEM.tif"

/-- Source `dems.py` lines 187-194: the floored/ceiled integer bounding box,
then line 194: `lons = np.arange(xmin, xmax + 1, 1)`. -/
def gridLons (b : BBox) : List Int :=
  intRange ⌊b.xmin⌋ (⌈b.xmax⌉ + 1)

/-- Source `dems.py` line 195: `lats = np.arange(ymin, ymax + 1, 1)`. -/
def gridLats (b : BBox) : List Int :=
  intRange ⌊b.ymin⌋ (⌈b.ymax⌉ + 1)

/-- The S3 and HTTP candidate URLs probed by the nested loop of
`dems.py` lines 210-238, in loop order: longitude outer, latitude
inner. -/
def candidateTiles (c : CopernicusState) : List (String × String) :=
  ((gridLons c.bbox).map lonStr).flatMap (fun lonTag =>
    ((gridLats c.bbox).map latStr).map (fun latTag =>
      (c.base_url_s3 ++ baseFolder c.arcsecond latTag lonTag
          ++ demFile c.arcsecond latTag lonTag,
        c.base_url_http ++ baseFolder c.arcsecond latTag lonTag
          ++ demFile c.arcsecond latTag lonTag)))

/-- Result attributes set by a successful `Copernicus.build_urls` run
(`self.s3_urls`, `self.http_urls`) and the local `missing_tiles` list. -/
structure BuildUrlsResult where
  s3_urls : List String
  http_urls : List String
  missing_tiles : List String
deriving Repr, DecidableEq

/-- The probe loop of `dems.py` lines 230-238: each candidate whose S3
open succeeds is appended to `s3_urls` and `http_urls`; any exception
is caught and the tile appended to `missing_tiles`. -/
def probeTiles (probe : String → Bool) :
    List (String × String) → List String × List String × List String
  | [] => ([], [], [])
  | t :: rest =>
    let r := probeTiles probe rest
    if probe t.1 then (t.1 :: r.1, t.2 :: r.2.1, r.2.2)
    else (r.1, r.2.1, t.1 :: r.2.2)

/-- Model of `Copernicus.build_urls` (`dems.py` lines 184-252): builds the
candidate grid, probes every tile, and raises `ValueError` (modelled as
`.error` carrying the message) when no probe succeeded and at least one
tile is missing. -/
def buildUrls (c : CopernicusState) (probe : String → Bool) :
    Except String BuildUrlsResult :=
  let r := probeTiles probe (candidateTiles c)
  if !r.1.isEmpty then
    .ok ⟨r.1, r.2.1, r.2.2⟩
  else if !r.2.2.isEmpty then
    .error ("No valid tile URLs found for the specified bounding box. "
      ++ "The following tile URLs are missing or inaccessible:\n"
      ++ String.intercalate "\n" r.2.2)
  else
    .ok ⟨r.1, r.2.1, r.2.2⟩

/-- The `ValueError` message raised by `Copernicus.build_urls`
(`dems.py` lines 246-252). -/
def missingTilesMessage (missing : List String) : String :=
  "No valid tile URLs found for the specified bounding box. "
    ++ "The following tile URLs are missing or inaccessible:\n"
    ++ String.intercalate "\n" missing

/-- The exist/payload partition loop of geodata
`Planetary.download_3DEP_DSM` (`geodata/dems.py` lines 114-122): each
queried filename output path goes to `exist` when the path exists and
overwrite is off, else to `payload`. -/
def planetaryPartition (output_folder : String) (overwrite : Bool)
    (existsFn : String → Bool) : List String → List String × List String
  | [] => ([], [])
  | fn :: rest =>
    let out := joinPath output_folder fn
    let r := planetaryPartition output_folder overwrite existsFn rest
    if existsFn out && !overwrite then (out :: r.1, r.2) else (r.1, out :: r.2)

/-- The download loop of geodata `Planetary.download_3DEP_DSM`
(`geodata/dems.py` lines 134-151): each payload path `fn` has its
raster written to `fn` itself; the list of destination paths written,
in order. -/
def planetaryDownloadWrites (output_folder : String) (overwrite : Bool)
    (existsFn : String → Bool) (dsm_file_names : List String) : List String :=
  (planetaryPartition output_folder overwrite existsFn dsm_file_names).2

/-- The exist/payload partition loop of dataquery
`download_planetary_3DEP_DSM` (`dataquery/dems.py` lines 33-41), a
separate copy of the same logic. -/
def dataqueryPartition (output_folder : String) (overwrite : Bool)
    (existsFn : String → Bool) : List String → List String × List String
  | [] => ([], [])
  | fn :: rest =>
    let out := joinPath output_folder fn
    let r := dataqueryPartition output_folder overwrite existsFn rest
    if existsFn out && !overwrite then (out :: r.1, r.2) else (r.1, out :: r.2)

/-- The download loop of dataquery `download_planetary_3DEP_DSM`
(`dataquery/dems.py` lines 53-71): the loop fetches each payload item
but line 71 writes to `out`, the leftover variable of the partition
loop, which holds the output path of the LAST queried filename; the
list of destination paths written, in order. -/
def dataqueryDownloadWrites (output_folder : String) (overwrite : Bool)
    (existsFn : String → Bool) (dsm_file_names : List String) : List String :=
  let payload := (dataqueryPartition output_folder overwrite existsFn dsm_file_names).2
  match dsm_file_names.getLast? with
  | some lastFn => payload.map (fun _ => joinPath output_folder lastFn)
  | none => []

/-- The return value of dataquery `download_planetary_3DEP_DSM`
(`dataquery/dems.py` lines 48-81): `True` after a nonempty payload is
downloaded, `False` when neither list has entries, and otherwise the
function falls off the end (Python returns `None`). -/
def dataqueryDownloadReturn (output_folder : String) (overwrite : Bool)
    (existsFn : String → Bool) (dsm_file_names : List String) : Option Bool :=
  let r := dataqueryPartition output_folder overwrite existsFn dsm_file_names
  if !r.2.isEmpty then some true
  else if r.1.isEmpty && r.2.isEmpty then some false
  else none

/-- The state produced by `Copernicus.download_tiles` (`dems.py` lines
254-280): the computed output paths, the (url, path) pairs actually
downloaded, and the `local_tiles` attribute afterwards (unchanged by
the early return when nothing is to download). -/
structure DownloadTilesResult where
  output_files : List String
  to_download : List (String × String)
  local_tiles : List String
deriving Repr, DecidableEq

/-- Model of `Copernicus.download_tiles` (`dems.py` lines 254-280): builds URLs,
maps each S3 URL to `output_folder.rstrip("/") + "/" + Path(url).name`,
skips paths that exist when its own `overwrite` parameter is off, and
downloads the rest. -/
def downloadTiles (c : CopernicusState) (overwrite : Bool)
    (probe : String → Bool) (existsFn : String → Bool) :
    Except String DownloadTilesResult :=
  (buildUrls c probe).map (fun r =>
    let output_files := r.s3_urls.map (fun url =>
      joinPath (rstripSlash c.output_folder) (lastSegment url))
    let to_download := (r.s3_urls.zip output_files).filter
      (fun pr => !(existsFn pr.2 && !overwrite))
    { output_files := output_files
      to_download := to_download
      local_tiles := if to_download.isEmpty then c.local_tiles else output_files })

/-- Outcome of `Copernicus.build_vrt_from_remote_tiles`: the resolved
output file, the gdalbuildvrt command line, whether the subprocess ran,
and whether the output file still existed at the `exists()` check
(after the overwrite unlink). -/
structure VrtOutcome where
  output_file : String
  command : String
  ran : Bool
  existsAtCheck : Bool
deriving Repr, DecidableEq

/-- Model of `Copernicus.build_vrt_from_remote_tiles` (`dems.py` lines 291-309):
builds URLs, resolves the output folder (`None` means the instance
attribute), unlinks the output when `self.overwrite` is set, then runs
`gdalbuildvrt` over the HTTP URLs exactly when the output file does not
exist at the check. -/
def buildVrtFromRemoteTiles (c : CopernicusState) (probe : String → Bool)
    (existsFn : String → Bool) (output_folder : Option String)
    (vrt_file_name : String) : Except String VrtOutcome :=
  (buildUrls c probe).map (fun r =>
    let folder := output_folder.getD c.output_folder
    let output_file := joinPath folder vrt_file_name
    let existsAtCheck := if c.overwrite then false else existsFn output_file
    { output_file := output_file
      command := String.intercalate " "
        (["gdalbuildvrt", output_file] ++ r.http_urls)
      ran := !existsAtCheck
      existsAtCheck := existsAtCheck })

/-- Source `dems.py` lines 376-389: the PGC collections accepted by
`PGC.__init__`. -/
def pgcValidCollections : List String :=
  ["arcticdem-mosaics-v3.0-2m",
    "arcticdem-mosaics-v3.0-10m",
    "arcticdem-mosaics-v3.0-32m",
    "arcticdem-mosaics-v4.1-2m",
    "arcticdem-mosaics-v4.1-10m",
    "arcticdem-mosaics-v4.1-32m",
    "arcticdem-strips-s2s041-2m",
    "earthdem-strips-s2s041-2m",
    "rema-mosaics-v2.0-2m",
    "rema-mosaics-v2.0-10m",
    "rema-mosaics-v2.0-32m",
    "rema-strips-s2s041-2m"]

/-- The instance attributes `PGC.__init__` assigns before validating
(`dems.py` lines 368-374). -/
structure PGCState where
  base_url : String
  collection : String
  bbox : BBox
  epsg_code : Option Int
  time_range : String
  output_folder : String
  overwrite : Bool
deriving Repr, DecidableEq

/-- Model of `PGC.__init__` up to the collection check (`dems.py` lines 339-393):
attributes are assigned, then a collection outside the valid set raises
`ValueError` (modelled as `none`); the catalog query that follows is an
external call outside the embedding. -/
def pgcInit (collection : String) (bbox : BBox) (epsg_code : Option Int)
    (time_range output_folder : String) (overwrite : Bool) : Option PGCState :=
  let s : PGCState :=
    { base_url := "https://stac.pgc.umn.edu/api/v1/"
      collection := collection
      bbox := bbox
      epsg_code := epsg_code
      time_range := time_range
      output_folder := output_folder
      overwrite := overwrite }
  if s.collection ∈ pgcValidCollections then some s else none

/-- A concrete Copernicus instance (90m collection, degenerate bounding
box at the origin) used to instantiate theorems on concrete inputs. -/
def copW0 : CopernicusState :=
  { base_url_s3 := "s3://copernicus-dem-90m/"
    base_url_http := "http://copernicus-dem-90m.s3.amazonaws.com/"
    bbox := ⟨0, 0, 0, 0⟩
    output_folder := "downloads/Copernicus"
    overwrite := false
    arcsecond := "3"
    local_tiles := [] }

/-- An existence oracle for concrete instantiations: only
`downloads/a.tif` exists. -/
def fileExistsA : String → Bool := fun p => p == "downloads/a.tif"

/-- The concrete `download_tiles` outcome for `copW0` when every probe
succeeds and no output file exists. -/
def copResW : DownloadTilesResult :=
  { output_files :=
      ["downloads/Copernicus/Copernicus_DSM_COG_30_N0_00_E000_00_DEM.tif"]
    to_download :=
      [("s3://copernicus-dem-90m/Copernicus_DSM_COG_30_N0_00_E000_00_DEM/Copernicus_DSM_COG_30_N0_00_E000_00_DEM.tif",
        "downloads/Copernicus/Copernicus_DSM_COG_30_N0_00_E000_00_DEM.tif")]
    local_tiles :=
      ["downloads/Copernicus/Copernicus_DSM_COG_30_N0_00_E000_00_DEM.tif"] }

/-- The concrete `build_vrt_from_remote_tiles` outcome for `copW0` when
every probe succeeds and no file exists. -/
def copVrtW : VrtOutcome :=
  { output_file := "downloads/Copernicus/combined.vrt"
    command := "gdalbuildvrt downloads/Copernicus/combined.vrt http://copernicus-dem-90m.s3.amazonaws.com/Copernicus_DSM_COG_30_N0_00_E000_00_DEM/Copernicus_DSM_COG_30_N0_00_E000_00_DEM.tif"
    ran := true
    existsAtCheck := false }

theorem mem_intRange {a b lon : Int} :
    lon ∈ intRange a b ↔ a ≤ lon ∧ lon < b := by
  simp only [intRange, List.mem_map, List.mem_range]
  constructor
  · rintro ⟨i, hi, rfl⟩
    omega
  · rintro ⟨h1, h2⟩
    exact ⟨(lon - a).toNat, by omega, by omega⟩

theorem intRange_pairwise {a b : Int} :
    (intRange a b).Pairwise (· < ·) :=
  (List.pairwise_lt_range _).map _ (fun _ _ h => by omega)

theorem probeTiles_eq (probe : String → Bool) (l : List (String × String)) :
    probeTiles probe l =
      ((l.filter (fun t => probe t.1)).map Prod.fst,
        (l.filter (fun t => probe t.1)).map Prod.snd,
        (l.filter (fun t => !probe t.1)).map Prod.fst) := by
  induction l with
  | nil => rfl
  | cons t rest ih =>
    by_cases h : probe t.1 = true <;>
      simp [probeTiles, ih, List.filter_cons, h]

theorem copernicusInit_some {col : String} {bbox : BBox}
    {folder : String} {ow : Bool} {c : CopernicusState}
    (h : copernicusInit col bbox folder ow = some c) :
    col ∈ copernicusValidCollections ∧
      c = { base_url_s3 := "s3://" ++ col ++ "/"
            base_url_http := "http://" ++ col ++ ".s3.amazonaws.com/"
            bbox := bbox
            output_folder := folder
            overwrite := ow
            arcsecond := if col == "copernicus-dem-90m" then "3" else "1"
            local_tiles := [] } := by
  unfold copernicusInit at h
  split at h
  · refine ⟨by assumption, ?_⟩
    injection h with h
    exact h.symm
  · exact absurd h (by simp)

theorem lonStr_eq (lon : Int) :
    lonStr lon = (if lon < 0 then "W" else "E") ++ zfill3 (toString lon.natAbs) := by
  unfold lonStr
  split <;> rfl

theorem latStr_eq (lat : Int) :
    latStr lat = (if lat < 0 then "S" else "N") ++ toString lat.natAbs := by
  unfold latStr
  split <;> rfl

theorem baseFolder_eq (a latTag lonTag : String) :
    baseFolder a latTag lonTag =
      ("Copernicus_DSM_COG_" ++ a ++ "0_" ++ latTag ++ "_00_" ++ lonTag
        ++ "_00_DEM") ++ "/" := by
  unfold baseFolder
  simp only [String.append_assoc]
  rfl

theorem demFile_eq (a latTag lonTag : String) :
    demFile a latTag lonTag =
      ("Copernicus_DSM_COG_" ++ a ++ "0_" ++ latTag ++ "_00_" ++ lonTag
        ++ "_00_DEM") ++ ".tif" := by
  unfold demFile
  simp only [String.append_assoc]
  rfl

theorem partition_copies_eq (folder : String) (ow : Bool) (ex : String → Bool)
    (fns : List String) :
    dataqueryPartition folder ow ex fns = planetaryPartition folder ow ex fns := by
  induction fns with
  | nil => rfl
  | cons fn rest ih => simp [dataqueryPartition, planetaryPartition, ih]

theorem planetaryPartition_false (folder : String) (ex : String → Bool)
    (fns : List String) :
    planetaryPartition folder false ex fns =
      ((fns.map (joinPath folder)).filter (fun p => ex p),
        (fns.map (joinPath folder)).filter (fun p => !ex p)) := by
  induction fns with
  | nil => rfl
  | cons fn rest ih =>
    by_cases h : ex (joinPath folder fn) = true <;>
      simp [planetaryPartition, List.filter_cons, h, ih]

/-- C1: for every bounding box and every integer longitude/latitude pair
in the probed grid, `Copernicus.build_urls` constructs the candidate
tile name as
`"Copernicus_DSM_COG_" + A + "0_" + LAT + "_00_" + LON + "_00_DEM"`
(folder, and the same name with `".tif"` for the file), where `A` is
`"3"` for collection `"copernicus-dem-90m"` and `"1"` for
`"copernicus-dem-30m"`, `LON` is `"W"` for negative longitudes else
`"E"` followed by the absolute longitude zero-padded to 3 digits, and
`LAT` is `"S"` for negative latitudes else `"N"` followed by the
unpadded absolute latitude. -/
theorem copernicus_tile_url_encoding
    (collection : String) (bbox : BBox) (folder : String) (ow : Bool)
    (c : CopernicusState) (lon lat : Int)
    (hc : copernicusInit collection bbox folder ow = some c)
    (hlon : lon ∈ gridLons c.bbox) (hlat : lat ∈ gridLats c.bbox) :
    (collection = "copernicus-dem-90m" ∨ collection = "copernicus-dem-30m") ∧
      ((c.base_url_s3
          ++ (("Copernicus_DSM_COG_"
              ++ (if collection = "copernicus-dem-90m" then "3" else "1")
              ++ "0_" ++ ((if lat < 0 then "S" else "N") ++ toString lat.natAbs)
              ++ "_00_"
              ++ ((if lon < 0 then "W" else "E") ++ zfill3 (toString lon.natAbs))
              ++ "_00_DEM") ++ "/")
          ++ (("Copernicus_DSM_COG_"
              ++ (if collection = "copernicus-dem-90m" then "3" else "1")
              ++ "0_" ++ ((if lat < 0 then "S" else "N") ++ toString lat.natAbs)
              ++ "_00_"
              ++ ((if lon < 0 then "W" else "E") ++ zfill3 (toString lon.natAbs))
              ++ "_00_DEM") ++ ".tif"),
        c.base_url_http
          ++ (("Copernicus_DSM_COG_"
              ++ (if collection = "copernicus-dem-90m" then "3" else "1")
              ++ "0_" ++ ((if lat < 0 then "S" else "N") ++ toString lat.natAbs)
              ++ "_00_"
              ++ ((if lon < 0 then "W" else "E") ++ zfill3 (toString lon.natAbs))
              ++ "_00_DEM") ++ "/")
          ++ (("Copernicus_DSM_COG_"
              ++ (if collection = "copernicus-dem-90m" then "3" else "1")
              ++ "0_" ++ ((if lat < 0 then "S" else "N") ++ toString lat.natAbs)
              ++ "_00_"
              ++ ((if lon < 0 then "W" else "E") ++ zfill3 (toString lon.natAbs))
              ++ "_00_DEM") ++ ".tif")) ∈ candidateTiles c) := by
  obtain ⟨hv, hcEq⟩ := copernicusInit_some hc
  simp only [copernicusValidCollections, List.mem_cons, List.mem_singleton,
    List.not_mem_nil, or_false] at hv
  refine ⟨hv, ?_⟩
  subst hcEq
  simp only at hlon hlat
  apply List.mem_flatMap.mpr
  refine ⟨lonStr lon, List.mem_map_of_mem _ hlon, ?_⟩
  apply List.mem_map.mpr
  refine ⟨latStr lat, List.mem_map_of_mem _ hlat, ?_⟩
  have harc :
      (if collection == "copernicus-dem-90m" then "3" else "1") =
        (if collection = "copernicus-dem-90m" then "3" else "1") := by
    simp [beq_iff_eq]
  rw [baseFolder_eq, demFile_eq, lonStr_eq, latStr_eq, harc]

theorem copernicus_tile_url_encoding_witness :
    copernicusInit "copernicus-dem-90m" ⟨0, 0, 0, 0⟩ "downloads/Copernicus" false
        = some copW0 ∧
      (0 : Int) ∈ gridLons copW0.bbox ∧ (0 : Int) ∈ gridLats copW0.bbox ∧
      (("copernicus-dem-90m" = "copernicus-dem-90m"
          ∨ "copernicus-dem-90m" = "copernicus-dem-30m") ∧
        ("s3://copernicus-dem-90m/Copernicus_DSM_COG_30_N0_00_E000_00_DEM/Copernicus_DSM_COG_30_N0_00_E000_00_DEM.tif",
          "http://copernicus-dem-90m.s3.amazonaws.com/Copernicus_DSM_COG_30_N0_00_E000_00_DEM/Copernicus_DSM_COG_30_N0_00_E000_00_DEM.tif")
          ∈ candidateTiles copW0) := by
  have h := copernicus_tile_url_encoding "copernicus-dem-90m" ⟨0, 0, 0, 0⟩
    "downloads/Copernicus" false copW0 0 0 rfl (by decide) (by decide)
  exact ⟨rfl, by decide, by decide, h⟩

/-- C2: `Copernicus.build_urls` probes exactly the tiles at integer
coordinates with `floor(xmin) <= lon <= ceil(xmax)` and
`floor(ymin) <= lat <= ceil(ymax)`, longitude in the ascending outer
loop and latitude in the ascending inner loop, and on a normal return
`s3_urls` is exactly the subsequence of the candidate URLs whose S3
probe succeeded, in iteration order. -/
theorem copernicus_build_urls_grid
    (c : CopernicusState) (probe : String → Bool) (res : BuildUrlsResult)
    (h : buildUrls c probe = .ok res) :
    (∀ lon : Int, lon ∈ gridLons c.bbox ↔
        ⌊c.bbox.xmin⌋ ≤ lon ∧ lon ≤ ⌈c.bbox.xmax⌉) ∧
      (∀ lat : Int, lat ∈ gridLats c.bbox ↔
        ⌊c.bbox.ymin⌋ ≤ lat ∧ lat ≤ ⌈c.bbox.ymax⌉) ∧
      (gridLons c.bbox).Pairwise (· < ·) ∧
      (gridLats c.bbox).Pairwise (· < ·) ∧
      candidateTiles c =
        (gridLons c.bbox).flatMap (fun lon => (gridLats c.bbox).map (fun lat =>
          (c.base_url_s3 ++ baseFolder c.arcsecond (latStr lat) (lonStr lon)
              ++ demFile c.arcsecond (latStr lat) (lonStr lon),
            c.base_url_http ++ baseFolder c.arcsecond (latStr lat) (lonStr lon)
              ++ demFile c.arcsecond (latStr lat) (lonStr lon)))) ∧
      res.s3_urls = ((candidateTiles c).map Prod.fst).filter probe := by
  refine ⟨?_, ?_, intRange_pairwise, intRange_pairwise, ?_, ?_⟩
  · intro lon
    rw [gridLons, mem_intRange]
    omega
  · intro lat
    rw [gridLats, mem_intRange]
    omega
  · simp [candidateTiles, List.flatMap_map, List.map_map, Function.comp_def]
  · have hr := probeTiles_eq probe (candidateTiles c)
    simp only [buildUrls, hr] at h
    rw [List.filter_map]
    split at h
    · injection h with h
      rw [← h]
      simp [Function.comp_def]
    · split at h
      · exact absurd h (by simp)
      · injection h with h
        rw [← h]
        simp [Function.comp_def]

theorem copernicus_build_urls_grid_witness :
    buildUrls copW0 (fun _ => true) =
        .ok ⟨["s3://copernicus-dem-90m/Copernicus_DSM_COG_30_N0_00_E000_00_DEM/Copernicus_DSM_COG_30_N0_00_E000_00_DEM.tif"],
          ["http://copernicus-dem-90m.s3.amazonaws.com/Copernicus_DSM_COG_30_N0_00_E000_00_DEM/Copernicus_DSM_COG_30_N0_00_E000_00_DEM.tif"],
          []⟩ ∧
      ((∀ lon : Int, lon ∈ gridLons copW0.bbox ↔
          ⌊copW0.bbox.xmin⌋ ≤ lon ∧ lon ≤ ⌈copW0.bbox.xmax⌉) ∧
        (∀ lat : Int, lat ∈ gridLats copW0.bbox ↔
          ⌊copW0.bbox.ymin⌋ ≤ lat ∧ lat ≤ ⌈copW0.bbox.ymax⌉) ∧
        (gridLons copW0.bbox).Pairwise (· < ·) ∧
        (gridLats copW0.bbox).Pairwise (· < ·) ∧
        candidateTiles copW0 =
          (gridLons copW0.bbox).flatMap (fun lon =>
            (gridLats copW0.bbox).map (fun lat =>
              (copW0.base_url_s3
                  ++ baseFolder copW0.arcsecond (latStr lat) (lonStr lon)
                  ++ demFile copW0.arcsecond (latStr lat) (lonStr lon),
                copW0.base_url_http
                  ++ baseFolder copW0.arcsecond (latStr lat) (lonStr lon)
                  ++ demFile copW0.arcsecond (latStr lat) (lonStr lon)))) ∧
        (["s3://copernicus-dem-90m/Copernicus_DSM_COG_30_N0_00_E000_00_DEM/Copernicus_DSM_COG_30_N0_00_E000_00_DEM.tif"] : List String) =
          ((candidateTiles copW0).map Prod.fst).filter (fun _ => true)) := by
  refine ⟨rfl, ?_⟩
  exact copernicus_build_urls_grid copW0 (fun _ => true)
    ⟨["s3://copernicus-dem-90m/Copernicus_DSM_COG_30_N0_00_E000_00_DEM/Copernicus_DSM_COG_30_N0_00_E000_00_DEM.tif"],
      ["http://copernicus-dem-90m.s3.amazonaws.com/Copernicus_DSM_COG_30_N0_00_E000_00_DEM/Copernicus_DSM_COG_30_N0_00_E000_00_DEM.tif"],
      []⟩ rfl

/-- C3: an exception while probing a tile is caught and the tile
recorded as missing (in the embedding, the probe oracle returns
`false`); `build_urls` raises `ValueError` listing the missing tile
URLs if and only if no probe succeeded and at least one tile was
missing, and when at least one probe succeeds it returns normally with
every missing tile excluded from `s3_urls` and `http_urls` (which list
exactly the tiles whose probe succeeded). -/
theorem copernicus_build_urls_error_handling
    (c : CopernicusState) (probe : String → Bool) :
    ((∃ e, buildUrls c probe = .error e) ↔
        ((∀ t ∈ candidateTiles c, probe t.1 = false) ∧ candidateTiles c ≠ [])) ∧
      (∀ e, buildUrls c probe = .error e →
        e = missingTilesMessage
          (((candidateTiles c).filter (fun t => !probe t.1)).map Prod.fst)) ∧
      (∀ res, buildUrls c probe = .ok res →
        res.s3_urls =
            ((candidateTiles c).filter (fun t => probe t.1)).map Prod.fst ∧
          res.http_urls =
            ((candidateTiles c).filter (fun t => probe t.1)).map Prod.snd ∧
          res.missing_tiles =
            ((candidateTiles c).filter (fun t => !probe t.1)).map Prod.fst) := by
  have hr := probeTiles_eq probe (candidateTiles c)
  by_cases hs : ((candidateTiles c).filter (fun t => probe t.1)) = []
  · by_cases hm : ((candidateTiles c).filter (fun t => !probe t.1)) = []
    · have hl : candidateTiles c = [] := by
        by_contra hne
        obtain ⟨t, ht⟩ := List.exists_mem_of_ne_nil _ hne
        by_cases hp : probe t.1 = true
        · have : t ∈ (candidateTiles c).filter (fun t => probe t.1) :=
            List.mem_filter.mpr ⟨ht, hp⟩
          simp [hs] at this
        · have : t ∈ (candidateTiles c).filter (fun t => !probe t.1) :=
            List.mem_filter.mpr ⟨ht, by simp [hp]⟩
          simp [hm] at this
      have hb : buildUrls c probe = .ok ⟨[], [], []⟩ := by
        simp [buildUrls, hr, hs, hm]
      refine ⟨⟨?_, ?_⟩, ?_, ?_⟩
      · rintro ⟨e, he⟩
        rw [hb] at he
        exact absurd he (by simp)
      · rintro ⟨_, hne⟩
        exact absurd hl hne
      · intro e he
        rw [hb] at he
        exact absurd he (by simp)
      · intro res hres
        rw [hb] at hres
        injection hres with hres
        rw [← hres]
        simp [hs, hm]
    · have hb : buildUrls c probe =
          .error (missingTilesMessage
            (((candidateTiles c).filter (fun t => !probe t.1)).map Prod.fst)) := by
        simp [buildUrls, missingTilesMessage, hr, hs, List.isEmpty_iff, hm,
          String.append_assoc]
      have hall : ∀ t ∈ candidateTiles c, probe t.1 = false := by
        intro t ht
        by_contra hp
        have hp2 : probe t.1 = true := by
          revert hp
          cases probe t.1 <;> simp
        have : t ∈ (candidateTiles c).filter (fun t => probe t.1) :=
          List.mem_filter.mpr ⟨ht, hp2⟩
        simp [hs] at this
      have hlne : candidateTiles c ≠ [] := by
        obtain ⟨t, ht⟩ := List.exists_mem_of_ne_nil _ hm
        exact List.ne_nil_of_mem (List.mem_filter.mp ht).1
      refine ⟨⟨fun _ => ⟨hall, hlne⟩, fun _ => ⟨_, hb⟩⟩, ?_, ?_⟩
      · intro e he
        rw [hb] at he
        injection he with he
        exact he.symm
      · intro res hres
        rw [hb] at hres
        exact absurd hres (by simp)
  · have hb : buildUrls c probe =
        .ok ⟨((candidateTiles c).filter (fun t => probe t.1)).map Prod.fst,
          ((candidateTiles c).filter (fun t => probe t.1)).map Prod.snd,
          ((candidateTiles c).filter (fun t => !probe t.1)).map Prod.fst⟩ := by
      simp [buildUrls, hr, List.isEmpty_iff, hs]
    refine ⟨⟨?_, ?_⟩, ?_, ?_⟩
    · rintro ⟨e, he⟩
      rw [hb] at he
      exact absurd he (by simp)
    · rintro ⟨hall, _⟩
      obtain ⟨t, ht⟩ := List.exists_mem_of_ne_nil _ hs
      obtain ⟨htl, htp⟩ := List.mem_filter.mp ht
      rw [hall t htl] at htp
      exact absurd htp (by simp)
    · intro e he
      rw [hb] at he
      exact absurd he (by simp)
    · intro res hres
      rw [hb] at hres
      injection hres with hres
      rw [← hres]
      exact ⟨rfl, rfl, rfl⟩

theorem copernicus_build_urls_error_handling_witness :
    ((∀ t ∈ candidateTiles copW0, (fun _ : String => false) t.1 = false) ∧
        candidateTiles copW0 ≠ []) ∧
      (∃ e, buildUrls copW0 (fun _ => false) = .error e) := by
  have h := copernicus_build_urls_error_handling copW0 (fun _ => false)
  exact ⟨⟨by decide, by decide⟩, h.1.mpr ⟨by decide, by decide⟩⟩

/-- C4: the two copies of the Planetary 3DEP DSM download routine
partition the queried filenames into the same exist/payload sets, but
they are NOT behaviorally equivalent on destination paths: the
dataquery copy writes every downloaded raster to the stale `out`
variable (the path of the last queried filename), shown here at the
concrete query result `["a.tif", "b.tif"]` with an empty folder. -/
theorem planetary_copies_divergence :
    (∀ (folder : String) (ow : Bool) (ex : String → Bool) (fns : List String),
        dataqueryPartition folder ow ex fns = planetaryPartition folder ow ex fns) ∧
      planetaryDownloadWrites "downloads" false (fun _ => false)
          ["a.tif", "b.tif"] = ["downloads/a.tif", "downloads/b.tif"] ∧
      dataqueryDownloadWrites "downloads" false (fun _ => false)
          ["a.tif", "b.tif"] = ["downloads/b.tif", "downloads/b.tif"] ∧
      dataqueryDownloadWrites "downloads" false (fun _ => false)
          ["a.tif", "b.tif"] ≠
        planetaryDownloadWrites "downloads" false (fun _ => false)
          ["a.tif", "b.tif"] :=
  ⟨partition_copies_eq, rfl, rfl, by decide⟩

/-- C5: in the dataquery copy, distinct payload items ARE written to the
same path: with payload `["out/x.tif", "out/y.tif"]` both rasters are
written to `"out/y.tif"` (the geodata copy writes each to its own
path). -/
theorem dataquery_download_same_destination :
    (dataqueryPartition "out" false (fun _ => false) ["x.tif", "y.tif"]).2 =
        ["out/x.tif", "out/y.tif"] ∧
      dataqueryDownloadWrites "out" false (fun _ => false) ["x.tif", "y.tif"] =
        ["out/y.tif", "out/y.tif"] ∧
      planetaryDownloadWrites "out" false (fun _ => false) ["x.tif", "y.tif"] =
        ["out/x.tif", "out/y.tif"] :=
  ⟨rfl, rfl, rfl⟩

/-- C6: with overwrite off, every queried filename whose output path
exists goes to the exist list and is never written (geodata
`Planetary.download_3DEP_DSM`), and `Copernicus.download_tiles`
downloads exactly the tiles whose output path does not exist, never
writing to an existing path. -/
theorem skip_existing_files
    (folder : String) (existsFn : String → Bool) (fns : List String)
    (c : CopernicusState) (probe : String → Bool) (res : DownloadTilesResult)
    (hres : downloadTiles c false probe existsFn = .ok res) :
    (planetaryPartition folder false existsFn fns).1 =
        (fns.map (joinPath folder)).filter (fun p => existsFn p) ∧
      (planetaryPartition folder false existsFn fns).2 =
        (fns.map (joinPath folder)).filter (fun p => !existsFn p) ∧
      (∀ p ∈ planetaryDownloadWrites folder false existsFn fns,
        existsFn p = false) ∧
      (∀ r, buildUrls c probe = .ok r →
        res.to_download =
          (r.s3_urls.zip (r.s3_urls.map (fun url =>
              joinPath (rstripSlash c.output_folder) (lastSegment url)))).filter
            (fun pr => !existsFn pr.2)) ∧
      (∀ pr ∈ res.to_download, existsFn pr.2 = false) := by
  have hpl := planetaryPartition_false folder existsFn fns
  refine ⟨by rw [hpl], by rw [hpl], ?_, ?_, ?_⟩
  · intro p hp
    rw [planetaryDownloadWrites, hpl] at hp
    have := (List.mem_filter.mp hp).2
    simpa using this
  · intro r hr
    unfold downloadTiles at hres
    rw [hr] at hres
    simp only [Except.map] at hres
    injection hres with hres
    rw [← hres]
    exact List.filter_congr (fun pr _ => by simp)
  · intro pr hpr
    unfold downloadTiles at hres
    cases hbu : buildUrls c probe with
    | error e =>
      rw [hbu] at hres
      exact absurd hres (by simp [Except.map])
    | ok r =>
      rw [hbu] at hres
      simp only [Except.map] at hres
      injection hres with hres
      rw [← hres] at hpr
      have := (List.mem_filter.mp hpr).2
      simpa using this

theorem skip_existing_files_witness :
    downloadTiles copW0 false (fun _ => true) fileExistsA = .ok copResW ∧
      ((planetaryPartition "downloads" false fileExistsA ["a.tif", "b.tif"]).1 =
          (["a.tif", "b.tif"].map (joinPath "downloads")).filter
            (fun p => fileExistsA p) ∧
        (planetaryPartition "downloads" false fileExistsA ["a.tif", "b.tif"]).2 =
          (["a.tif", "b.tif"].map (joinPath "downloads")).filter
            (fun p => !fileExistsA p) ∧
        (∀ p ∈ planetaryDownloadWrites "downloads" false fileExistsA
            ["a.tif", "b.tif"], fileExistsA p = false) ∧
        (∀ r, buildUrls copW0 (fun _ => true) = .ok r →
          copResW.to_download =
            (r.s3_urls.zip (r.s3_urls.map (fun url =>
                joinPath (rstripSlash copW0.output_folder)
                  (lastSegment url)))).filter
              (fun pr => !fileExistsA pr.2)) ∧
        (∀ pr ∈ copResW.to_download, fileExistsA pr.2 = false)) :=
  ⟨rfl, skip_existing_files "downloads" fileExistsA ["a.tif", "b.tif"]
    copW0 (fun _ => true) copResW rfl⟩

/-- C7: `build_vrt_from_remote_tiles` runs the `gdalbuildvrt` command
(over the HTTP tile URLs, writing to `output_folder/vrt_file_name`)
exactly when the output file does not exist at the check; with
`self.overwrite` set the pre-existing output is deleted first so the
build always runs, and with it unset an existing file makes the build
be skipped. -/
theorem copernicus_build_vrt_overwrite
    (c : CopernicusState) (probe existsFn : String → Bool)
    (output_folder : Option String) (vrt_file_name : String) (o : VrtOutcome)
    (h : buildVrtFromRemoteTiles c probe existsFn output_folder vrt_file_name
      = .ok o) :
    o.output_file = joinPath (output_folder.getD c.output_folder) vrt_file_name ∧
      (∀ r, buildUrls c probe = .ok r →
        o.command = String.intercalate " "
          (["gdalbuildvrt", o.output_file] ++ r.http_urls)) ∧
      o.ran = !o.existsAtCheck ∧
      (c.overwrite = true → o.existsAtCheck = false ∧ o.ran = true) ∧
      (c.overwrite = false →
        o.existsAtCheck = existsFn o.output_file ∧
          (existsFn o.output_file = true → o.ran = false)) := by
  unfold buildVrtFromRemoteTiles at h
  cases hbu : buildUrls c probe with
  | error e =>
    rw [hbu] at h
    exact absurd h (by simp [Except.map])
  | ok r =>
    rw [hbu] at h
    simp only [Except.map] at h
    injection h with h
    subst h
    refine ⟨rfl, ?_, rfl, ?_, ?_⟩
    · intro r2 hr2
      injection hr2 with hr2
      subst hr2
      rfl
    · intro hov
      simp [hov]
    · intro hov
      refine ⟨by simp [hov], ?_⟩
      intro hex
      simp [hov, hex]

theorem copernicus_build_vrt_overwrite_witness :
    buildVrtFromRemoteTiles copW0 (fun _ => true) (fun _ => false) none
        "combined.vrt" = .ok copVrtW ∧
      (copVrtW.output_file =
          joinPath ((none : Option String).getD copW0.output_folder)
            "combined.vrt" ∧
        (∀ r, buildUrls copW0 (fun _ => true) = .ok r →
          copVrtW.command = String.intercalate " "
            (["gdalbuildvrt", copVrtW.output_file] ++ r.http_urls)) ∧
        copVrtW.ran = !copVrtW.existsAtCheck ∧
        (copW0.overwrite = true →
          copVrtW.existsAtCheck = false ∧ copVrtW.ran = true) ∧
        (copW0.overwrite = false →
          copVrtW.existsAtCheck = (fun _ : String => false) copVrtW.output_file ∧
            ((fun _ : String => false) copVrtW.output_file = true →
              copVrtW.ran = false))) :=
  ⟨rfl, copernicus_build_vrt_overwrite copW0 (fun _ => true) (fun _ => false)
    none "combined.vrt" copVrtW rfl⟩

/-- C8: `Copernicus.download_tiles` does not depend on the instance
attribute `self.overwrite`: two instances identical except for that
attribute make the same decisions for the same `overwrite` argument. -/
theorem copernicus_download_tiles_overwrite_independent
    (s3 http : String) (bbox : BBox) (folder : String) (o1 o2 : Bool)
    (arc : String) (lt : List String) (overwrite : Bool)
    (probe existsFn : String → Bool) :
    downloadTiles ⟨s3, http, bbox, folder, o1, arc, lt⟩ overwrite probe existsFn
      = downloadTiles ⟨s3, http, bbox, folder, o2, arc, lt⟩ overwrite probe
          existsFn := rfl

/-- C9: dataquery `download_planetary_3DEP_DSM` returns `True` when the
payload is nonempty, `False` when the query produced no filenames at
all (equivalently, both lists empty), and falls off the end (`None`)
when the payload is empty but some file already existed. -/
theorem dataquery_return_value
    (folder : String) (ow : Bool) (ex : String → Bool) (fns : List String) :
    (((dataqueryPartition folder ow ex fns).1 = [] ∧
        (dataqueryPartition folder ow ex fns).2 = []) ↔ fns = []) ∧
      ((dataqueryPartition folder ow ex fns).2 ≠ [] →
        dataqueryDownloadReturn folder ow ex fns = some true) ∧
      (fns = [] → dataqueryDownloadReturn folder ow ex fns = some false) ∧
      ((dataqueryPartition folder ow ex fns).2 = [] →
        (dataqueryPartition folder ow ex fns).1 ≠ [] →
        dataqueryDownloadReturn folder ow ex fns = none) := by
  refine ⟨⟨?_, ?_⟩, ?_, ?_, ?_⟩
  · rintro ⟨h1, h2⟩
    cases fns with
    | nil => rfl
    | cons fn rest =>
      by_cases hc : (ex (joinPath folder fn) && !ow) = true
      · simp [dataqueryPartition, hc] at h1
      · simp [dataqueryPartition, hc] at h2
  · rintro rfl
    exact ⟨rfl, rfl⟩
  · intro h
    simp [dataqueryDownloadReturn, List.isEmpty_iff, h]
  · rintro rfl
    rfl
  · intro h2 h1
    simp [dataqueryDownloadReturn, List.isEmpty_iff, h1, h2]

theorem dataquery_return_value_witness :
    ((dataqueryPartition "downloads" false (fun _ => false) ["a.tif"]).2 ≠ [] ∧
        dataqueryDownloadReturn "downloads" false (fun _ => false) ["a.tif"]
          = some true) ∧
      dataqueryDownloadReturn "downloads" false (fun _ => false) []
          = some false ∧
      ((dataqueryPartition "downloads" false (fun _ => true) ["a.tif"]).2 = [] ∧
        (dataqueryPartition "downloads" false (fun _ => true) ["a.tif"]).1 ≠ [] ∧
        dataqueryDownloadReturn "downloads" false (fun _ => true) ["a.tif"]
          = none) := by
  refine ⟨⟨by decide, ?_⟩, ?_, by decide, by decide, ?_⟩
  · exact (dataquery_return_value "downloads" false (fun _ => false)
      ["a.tif"]).2.1 (by decide)
  · exact (dataquery_return_value "downloads" false (fun _ => false) []).2.2.1
      rfl
  · exact (dataquery_return_value "downloads" false (fun _ => true)
      ["a.tif"]).2.2.2 (by decide) (by decide)

/-- C10: `Copernicus.__init__` raises `ValueError` exactly for
collections outside its two-element valid set (before any attribute is
assigned: the embedding yields no state on the error path), and
`PGC.__init__` raises `ValueError` exactly for collections outside its
twelve-element valid set. -/
theorem init_collection_validation
    (col : String) (bbox : BBox) (folder : String) (ow : Bool)
    (epsg : Option Int) (tr outf : String) (pow : Bool) :
    (copernicusInit col bbox folder ow = none ↔
        col ∉ copernicusValidCollections) ∧
      (col ∈ copernicusValidCollections →
        copernicusInit col bbox folder ow ≠ none) ∧
      copernicusValidCollections.length = 2 ∧
      (pgcInit col bbox epsg tr outf pow = none ↔
        col ∉ pgcValidCollections) ∧
      pgcValidCollections.length = 12 := by
  refine ⟨?_, ?_, rfl, ?_, rfl⟩
  · by_cases hv : col ∈ copernicusValidCollections <;>
      simp [copernicusInit, hv]
  · intro hv
    simp [copernicusInit, hv]
  · by_cases hv : col ∈ pgcValidCollections <;>
      simp [pgcInit, hv]

theorem init_collection_validation_witness :
    (copernicusInit "bogus" ⟨0, 0, 0, 0⟩ "downloads" false = none ∧
        "bogus" ∉ copernicusValidCollections) ∧
      copernicusInit "copernicus-dem-90m" ⟨0, 0, 0, 0⟩ "downloads" false
          ≠ none ∧
      pgcInit "bogus" ⟨0, 0, 0, 0⟩ none "2000-12-01/2025-12-31"
          "downloads/PGC" false = none := by
  have h1 := init_collection_validation "bogus" ⟨0, 0, 0, 0⟩ "downloads" false
    none "2000-12-01/2025-12-31" "downloads/PGC" false
  have h2 := init_collection_validation "copernicus-dem-90m" ⟨0, 0, 0, 0⟩
    "downloads" false none "2000-12-01/2025-12-31" "downloads/PGC" false
  exact ⟨⟨h1.1.mpr (by decide), by decide⟩, h2.2.1 (by decide),
    h1.2.2.2.1.mpr (by decide)⟩

end Geodata

